import Mathlib

/-!
Verification of the mode/state coordination engine of CaffeineTake
(`Src/CaffeineTake/CaffeineApp.cpp`).

The coordinator is a finite state machine: the mode, the execution state,
the session state and the display flag are all finite, and the settings
relevant to the core are six booleans.  We embed the C++ member functions
as pure Lean functions over an explicit `AppState`, with the outcome of the
OS call `SetThreadExecutionState` supplied as a boolean oracle `osOk`, and
the issued flag word reported in the result so that properties of the OS
call can be stated.
-/

namespace CaffeineTake

/-- The four user-facing modes (`enum class CaffeineMode`). -/
inductive CaffeineMode
  | Disabled
  | Enabled
  | Auto
  | Timer
deriving DecidableEq, Fintype

/-- Whether the keep-awake assertion is held (`enum class CaffeineState`). -/
inductive CaffeineState
  | Active
  | Inactive
deriving DecidableEq, Fintype

/-- OS session lock status (`enum class SessionState`). -/
inductive SessionState
  | Locked
  | Unlocked
deriving DecidableEq, Fintype

/-- The per-mode settings fields read by `UpdateExecutionState`. -/
structure ModeSettings where
  KeepDisplayOn : Bool
  DisableOnLockScreen : Bool
deriving DecidableEq, Fintype

/-- The settings sections read by `UpdateExecutionState`
(`mSettings->Standard`, `mSettings->Auto`, `mSettings->Timer`). -/
structure Settings where
  Standard : ModeSettings
  Auto : ModeSettings
  Timer : ModeSettings
deriving DecidableEq, Fintype

/-- The coordinator-relevant member fields of `CaffeineApp`. -/
structure AppState where
  mSettings : Settings
  mSessionState : SessionState
  mCaffeineState : CaffeineState
  mCaffeineMode : CaffeineMode
  mKeepDisplayOn : Bool
deriving DecidableEq, Fintype

/-- Flag `ES_CONTINUOUS` of `SetThreadExecutionState`. -/
def ES_CONTINUOUS : Nat := 0x80000000

/-- Flag `ES_SYSTEM_REQUIRED` of `SetThreadExecutionState`. -/
def ES_SYSTEM_REQUIRED : Nat := 0x00000001

/-- Flag `ES_DISPLAY_REQUIRED` of `SetThreadExecutionState`. -/
def ES_DISPLAY_REQUIRED : Nat := 0x00000002

/-- The `(keepDisplayOn, disableOnLock)` pair selected by the `switch` at the
top of `UpdateExecutionState`; in the `Disabled` case both locals keep their
initial value `false`. -/
def modeConfig (s : Settings) : CaffeineMode → ModeSettings
  | CaffeineMode.Disabled => ⟨false, false⟩
  | CaffeineMode.Enabled => s.Standard
  | CaffeineMode.Auto => s.Auto
  | CaffeineMode.Timer => s.Timer

/-- Result of one run of `UpdateExecutionState`: the new member fields, the
flag word passed to `SetThreadExecutionState` (`none` when the function
returned early without calling it), and whether the icon/tip refresh at the
end of the function was reached. -/
structure UpdateResult where
  st : AppState
  osCall : Option Nat
  uiRefreshed : Bool
deriving DecidableEq

/-- The flag word built in `UpdateExecutionState`: `ES_CONTINUOUS` always;
`ES_SYSTEM_REQUIRED` when the new state is `Active`; `ES_DISPLAY_REQUIRED`
only inside that same `Active` branch, when `keepDisplayOn` holds. -/
def executionFlags (state : CaffeineState) (keepDisplayOn : Bool) : Nat :=
  if state = CaffeineState.Active then
    if keepDisplayOn then
      ES_CONTINUOUS ||| ES_SYSTEM_REQUIRED ||| ES_DISPLAY_REQUIRED
    else
      ES_CONTINUOUS ||| ES_SYSTEM_REQUIRED
  else
    ES_CONTINUOUS

/-- The tail of `UpdateExecutionState` after the early-return checks:
`mCaffeineState` and `mKeepDisplayOn` are assigned, the flag word is built,
`SetThreadExecutionState` is called, and only on success the icon/tip are
refreshed.  Note the member assignments happen before the OS call. -/
def commitExecutionState (app : AppState) (state : CaffeineState)
    (keepDisplayOn : Bool) (osOk : Bool) : UpdateResult :=
  let app' := { app with mCaffeineState := state, mKeepDisplayOn := keepDisplayOn }
  let flags := executionFlags state keepDisplayOn
  if osOk then
    { st := app', osCall := some flags, uiRefreshed := true }
  else
    { st := app', osCall := some flags, uiRefreshed := false }

/-- Embedding of `CaffeineApp::UpdateExecutionState(CaffeineState state)`; the
argument `osOk` is the boolean outcome of the `SetThreadExecutionState` call,
should one be made. -/
def UpdateExecutionState (app : AppState) (state : CaffeineState)
    (osOk : Bool) : UpdateResult :=
  let cfg := modeConfig app.mSettings app.mCaffeineMode
  if app.mCaffeineMode = CaffeineMode.Disabled then
    if app.mCaffeineState = state then
      { st := app, osCall := none, uiRefreshed := false }
    else
      commitExecutionState app state cfg.KeepDisplayOn osOk
  else
    let keepDisplayOn :=
      if app.mSessionState = SessionState.Locked ∧ cfg.KeepDisplayOn = true then
        !cfg.DisableOnLockScreen
      else
        cfg.KeepDisplayOn
    if app.mCaffeineState = state ∧ app.mKeepDisplayOn = keepDisplayOn then
      { st := app, osCall := none, uiRefreshed := false }
    else
      commitExecutionState app state keepDisplayOn osOk

/-- Embedding of `CaffeineApp::RefreshExecutionState()`: re-run reconciliation
with the currently recorded state. -/
def RefreshExecutionState (app : AppState) (osOk : Bool) : UpdateResult :=
  UpdateExecutionState app app.mCaffeineState osOk

/-- The desired display flag computed by `UpdateExecutionState` before the
short-circuit comparison: the mode config value, overridden to
`!DisableOnLockScreen` when the session is locked and the config requests
display-on; always `false` in `Disabled` mode. -/
def desiredKeepDisplayOn (app : AppState) : Bool :=
  let cfg := modeConfig app.mSettings app.mCaffeineMode
  if app.mCaffeineMode = CaffeineMode.Disabled then
    false
  else if app.mSessionState = SessionState.Locked ∧ cfg.KeepDisplayOn = true then
    !cfg.DisableOnLockScreen
  else
    cfg.KeepDisplayOn

/-- The `switch` inside `CaffeineApp::ToggleCaffeineMode`: the successor in the
fixed cycle Disabled → Enabled → Auto → Timer → Disabled. -/
def nextMode : CaffeineMode → CaffeineMode
  | CaffeineMode.Disabled => CaffeineMode.Enabled
  | CaffeineMode.Enabled => CaffeineMode.Auto
  | CaffeineMode.Auto => CaffeineMode.Timer
  | CaffeineMode.Timer => CaffeineMode.Disabled

/-- Modelled from the spec: the mode-policy classes (`DisabledMode`,
`EnabledMode`, `AutoMode`, `TimerMode`) are not part of this translation
unit; per the spec, the start of Disabled immediately reports `active=false`
once, the starts of Enabled and of Timer immediately report `active=true`,
and the start of Auto only begins periodic inspection, reporting nothing
immediately.  The report reaches `OnCustomMessage`, which maps `true` to
`Active` and `false` to `Inactive`. -/
def startModeReport : CaffeineMode → Option CaffeineState
  | CaffeineMode.Disabled => some CaffeineState.Inactive
  | CaffeineMode.Enabled => some CaffeineState.Active
  | CaffeineMode.Auto => none
  | CaffeineMode.Timer => some CaffeineState.Active

/-- The member-field effect of `CaffeineApp::SetCaffeineMode`: assign
`mCaffeineMode`, then `StartMode` dispatches to the policy of the new mode,
whose immediate report (if any) runs `UpdateExecutionState`.  Returns the
new fields and the OS call made by that reconciliation, if any. -/
def SetCaffeineModeApp (app : AppState) (mode : CaffeineMode)
    (osOk : Bool) : AppState × Option Nat :=
  let app' := { app with mCaffeineMode := mode }
  match startModeReport mode with
  | none => (app', none)
  | some st =>
      let r := UpdateExecutionState app' st osOk
      (r.st, r.osCall)

/-- Embedding of `CaffeineApp::ToggleCaffeineMode` at the member-field level:
compute the next mode in the cycle and set it. -/
def ToggleCaffeineModeApp (app : AppState) (osOk : Bool) : AppState × Option Nat :=
  SetCaffeineModeApp app (nextMode app.mCaffeineMode) osOk

/-- A start or stop call delivered to a mode policy. -/
inductive PolicyEvent
  | start (m : CaffeineMode)
  | stop (m : CaffeineMode)
deriving DecidableEq

/-- Effect of `StopMode` on the set of running policies: `Stop` is dispatched
to the policy of the current mode, which is then no longer running. -/
def StopModeRunning (running : CaffeineMode → Bool)
    (mode : CaffeineMode) : CaffeineMode → Bool :=
  fun m => if m = mode then false else running m

/-- Effect of `StartMode` on the set of running policies: `Start` is dispatched
to the policy of the current mode, which is then running. -/
def StartModeRunning (running : CaffeineMode → Bool)
    (mode : CaffeineMode) : CaffeineMode → Bool :=
  fun m => if m = mode then true else running m

/-- The coordinator fields together with which mode policies are currently
started without a matching stop. -/
structure SysState where
  app : AppState
  running : CaffeineMode → Bool

/-- Result of `SetCaffeineMode` at the system level: the new state, the
stop/start calls it issued (in order), and the OS call of the triggered
reconciliation, if any. -/
structure SetModeResult where
  sys : SysState
  events : List PolicyEvent
  osCall : Option Nat

/-- Embedding of `CaffeineApp::SetCaffeineMode(mode)`: stop the policy of the
current mode, assign `mCaffeineMode := mode`, start the policy of the new
mode.  The stop/start pair is issued unconditionally, also when `mode` equals
the current mode. -/
def SetCaffeineModeSys (s : SysState) (mode : CaffeineMode)
    (osOk : Bool) : SetModeResult :=
  let oldMode := s.app.mCaffeineMode
  let running' := StartModeRunning (StopModeRunning s.running oldMode) mode
  let r := SetCaffeineModeApp s.app mode osOk
  { sys := { app := r.1, running := running' },
    events := [PolicyEvent.stop oldMode, PolicyEvent.start mode],
    osCall := r.2 }

/-- Embedding of `CaffeineApp::ToggleCaffeineMode()` at the system level. -/
def ToggleCaffeineModeSys (s : SysState) (osOk : Bool) : SetModeResult :=
  SetCaffeineModeSys s (nextMode s.app.mCaffeineMode) osOk

/-- The stimuli that reach the coordinator: a user mode switch, a toggle, a
policy activity report (`WM_CAFFEINE_TAKE_UPDATE_EXECUTION_STATE` handled by
`OnCustomMessage`), and the session lock/unlock notifications handled in
`OnSystemMessage`.  Each carries the outcome of the OS call it may make. -/
inductive Stimulus
  | setMode (m : CaffeineMode) (osOk : Bool)
  | toggleMode (osOk : Bool)
  | policyDecision (active : Bool) (osOk : Bool)
  | sessionLock (osOk : Bool)
  | sessionUnlock (osOk : Bool)
deriving DecidableEq

/-- One stimulus step of the coordinator. -/
def stepSys (s : SysState) : Stimulus → SysState
  | Stimulus.setMode m osOk => (SetCaffeineModeSys s m osOk).sys
  | Stimulus.toggleMode osOk => (ToggleCaffeineModeSys s osOk).sys
  | Stimulus.policyDecision a osOk =>
      let st := if a then CaffeineState.Active else CaffeineState.Inactive
      { s with app := (UpdateExecutionState s.app st osOk).st }
  | Stimulus.sessionLock osOk =>
      let app' := { s.app with mSessionState := SessionState.Locked }
      { s with app := (RefreshExecutionState app' osOk).st }
  | Stimulus.sessionUnlock osOk =>
      let app' := { s.app with mSessionState := SessionState.Unlocked }
      { s with app := (RefreshExecutionState app' osOk).st }

/-- Initial member fields established by the `CaffeineApp` constructor:
`Unlocked`, `Inactive`, `Disabled`, display flag `false`. -/
def initialAppState (s : Settings) : AppState :=
  { mSettings := s
    mSessionState := SessionState.Unlocked
    mCaffeineState := CaffeineState.Inactive
    mCaffeineMode := CaffeineMode.Disabled
    mKeepDisplayOn := false }

/-- Initial system state: constructor fields, no policy running. -/
def initSys (s : Settings) : SysState :=
  { app := initialAppState s, running := fun _ => false }

/-- Run a list of stimuli from the initial state. -/
def runSys (s : Settings) (l : List Stimulus) : SysState :=
  l.foldl stepSys (initSys s)

/-- Number of mode policies currently started without a matching stop. -/
def countRunning (r : CaffeineMode → Bool) : Nat :=
  (if r CaffeineMode.Disabled then 1 else 0) +
  (if r CaffeineMode.Enabled then 1 else 0) +
  (if r CaffeineMode.Auto then 1 else 0) +
  (if r CaffeineMode.Timer then 1 else 0)

/-- Whether the OS call of the result was made. -/
def osCallMade (r : UpdateResult) : Bool :=
  match r.osCall with
  | some _ => true
  | none => false

/-- Whether the OS call of the result, if made, includes `ES_CONTINUOUS`. -/
def osCallHasContinuous (r : UpdateResult) : Bool :=
  match r.osCall with
  | some f => f.testBit 31
  | none => false

/-- Whether the OS call of the result, if made, includes `ES_SYSTEM_REQUIRED`. -/
def osCallHasSystem (r : UpdateResult) : Bool :=
  match r.osCall with
  | some f => f.testBit 0
  | none => false

/-- Whether the OS call of the result, if made, includes `ES_DISPLAY_REQUIRED`. -/
def osCallHasDisplay (r : UpdateResult) : Bool :=
  match r.osCall with
  | some f => f.testBit 1
  | none => false


/-! ### Structural lemmas about the reconciliation step -/

/-- The committed execution state is always the requested one: both
short-circuit branches require it to match already, and the commit branch
assigns it. -/
lemma updateState_mCaffeineState (app : AppState) (st : CaffeineState) (o : Bool) :
    (UpdateExecutionState app st o).st.mCaffeineState = st := by
  simp only [UpdateExecutionState, commitExecutionState]
  repeat' split
  all_goals simp_all

/-- Reconciliation never changes the mode. -/
lemma updateState_mCaffeineMode (app : AppState) (st : CaffeineState) (o : Bool) :
    (UpdateExecutionState app st o).st.mCaffeineMode = app.mCaffeineMode := by
  simp only [UpdateExecutionState, commitExecutionState]
  repeat' split
  all_goals simp_all

/-- Reconciliation never changes the settings. -/
lemma updateState_mSettings (app : AppState) (st : CaffeineState) (o : Bool) :
    (UpdateExecutionState app st o).st.mSettings = app.mSettings := by
  simp only [UpdateExecutionState, commitExecutionState]
  repeat' split
  all_goals simp_all

/-- Reconciliation never changes the session state. -/
lemma updateState_mSessionState (app : AppState) (st : CaffeineState) (o : Bool) :
    (UpdateExecutionState app st o).st.mSessionState = app.mSessionState := by
  simp only [UpdateExecutionState, commitExecutionState]
  repeat' split
  all_goals simp_all

/-- Outside Disabled mode, the display flag after reconciliation is exactly the
desired one: the short-circuit branch demands it already matches and the
commit branch assigns it. -/
lemma updateState_mKeepDisplayOn (app : AppState) (st : CaffeineState) (o : Bool)
    (h : app.mCaffeineMode ≠ CaffeineMode.Disabled) :
    (UpdateExecutionState app st o).st.mKeepDisplayOn = desiredKeepDisplayOn app := by
  simp only [UpdateExecutionState, commitExecutionState, desiredKeepDisplayOn]
  repeat' split
  all_goals simp_all

/-- When the desired pair already equals the recorded pair, reconciliation
returns early: no OS call, no state change, no icon/tip refresh. -/
lemma updateState_shortCircuit (app : AppState) (st : CaffeineState) (o : Bool)
    (h1 : app.mCaffeineState = st) (h2 : app.mKeepDisplayOn = desiredKeepDisplayOn app) :
    UpdateExecutionState app st o = { st := app, osCall := none, uiRefreshed := false } := by
  simp only [UpdateExecutionState, commitExecutionState, desiredKeepDisplayOn] at *
  repeat' split
  all_goals simp_all

/-- A failed OS call yields the same member fields as a successful one (the
assignments precede the call); only the icon/tip refresh is skipped. -/
lemma updateState_osFail (app : AppState) (st : CaffeineState) :
    (UpdateExecutionState app st false).st = (UpdateExecutionState app st true).st ∧
    (UpdateExecutionState app st false).osCall = (UpdateExecutionState app st true).osCall ∧
    (UpdateExecutionState app st false).uiRefreshed = false := by
  simp only [UpdateExecutionState, commitExecutionState]
  repeat' split
  all_goals simp_all

/-- The OS call, when made, carries exactly the flag word for the requested
state and the newly committed display flag. -/
lemma updateState_osCall_eq (app : AppState) (st : CaffeineState) (o : Bool) :
    (UpdateExecutionState app st o).osCall = none ∨
    (UpdateExecutionState app st o).osCall =
      some (executionFlags st (UpdateExecutionState app st o).st.mKeepDisplayOn) := by
  simp only [UpdateExecutionState, commitExecutionState]
  repeat' split
  all_goals simp_all

/-- The desired display flag only depends on the settings, the session state
and the mode. -/
lemma desiredKeepDisplayOn_congr (a b : AppState)
    (h1 : a.mSettings = b.mSettings) (h2 : a.mSessionState = b.mSessionState)
    (h3 : a.mCaffeineMode = b.mCaffeineMode) :
    desiredKeepDisplayOn a = desiredKeepDisplayOn b := by
  simp only [desiredKeepDisplayOn, h1, h2, h3]

/-- Setting a mode leaves the coordinator in exactly that mode. -/
lemma setCaffeineModeApp_mode (app : AppState) (m : CaffeineMode) (o : Bool) :
    (SetCaffeineModeApp app m o).1.mCaffeineMode = m := by
  simp only [SetCaffeineModeApp]
  cases m <;> simp [startModeReport, updateState_mCaffeineMode]

/-- Bit structure of the flag words: bit 31 (`ES_CONTINUOUS`) is always set;
bit 1 (`ES_DISPLAY_REQUIRED`) is set only together with bit 0
(`ES_SYSTEM_REQUIRED`), and only when the requested state is Active. -/
lemma executionFlags_bits (st : CaffeineState) (k : Bool) :
    (executionFlags st k).testBit 31 = true ∧
    ((executionFlags st k).testBit 1 = true → (executionFlags st k).testBit 0 = true) ∧
    ((executionFlags st k).testBit 1 = true → st = CaffeineState.Active) := by
  cases st <;> cases k <;> decide


/-! ### The at-most-one-running-policy invariant -/

/-- Every policy currently started without a matching stop is the policy of
the currently selected mode. -/
def PolicyInv (s : SysState) : Prop :=
  ∀ m, s.running m = true → m = s.app.mCaffeineMode

/-- If all running policies equal one fixed mode, at most one is running. -/
lemma countRunning_le_one (md : CaffeineMode) (r : CaffeineMode → Bool)
    (h : ∀ m, r m = true → m = md) : countRunning r ≤ 1 := by
  revert h
  revert md r
  decide

/-- Each stimulus preserves the running-policy invariant. -/
lemma policyInv_step (s : SysState) (stim : Stimulus) (h : PolicyInv s) :
    PolicyInv (stepSys s stim) := by
  cases stim with
  | setMode m o =>
      intro m' hm'
      simp only [stepSys, SetCaffeineModeSys, StartModeRunning, StopModeRunning] at hm' ⊢
      rw [setCaffeineModeApp_mode]
      by_cases he : m' = m
      · exact he
      · simp only [he, if_false] at hm'
        by_cases ho : m' = s.app.mCaffeineMode
        · simp [ho] at hm'
        · simp only [ho, if_false] at hm'
          exact absurd (h m' hm') ho
  | toggleMode o =>
      intro m' hm'
      simp only [stepSys, ToggleCaffeineModeSys, SetCaffeineModeSys, StartModeRunning,
        StopModeRunning] at hm' ⊢
      rw [setCaffeineModeApp_mode]
      by_cases he : m' = nextMode s.app.mCaffeineMode
      · exact he
      · simp only [he, if_false] at hm'
        by_cases ho : m' = s.app.mCaffeineMode
        · simp [ho] at hm'
        · simp only [ho, if_false] at hm'
          exact absurd (h m' hm') ho
  | policyDecision a o =>
      intro m' hm'
      simp only [stepSys] at hm' ⊢
      rw [updateState_mCaffeineMode]
      exact h m' hm'
  | sessionLock o =>
      intro m' hm'
      simp only [stepSys, RefreshExecutionState] at hm' ⊢
      rw [updateState_mCaffeineMode]
      exact h m' hm'
  | sessionUnlock o =>
      intro m' hm'
      simp only [stepSys, RefreshExecutionState] at hm' ⊢
      rw [updateState_mCaffeineMode]
      exact h m' hm'

/-- The running-policy invariant holds in every reachable state. -/
lemma policyInv_runSys (settings : Settings) (l : List Stimulus) :
    PolicyInv (runSys settings l) := by
  have key : ∀ (l : List Stimulus) (s : SysState), PolicyInv s → PolicyInv (l.foldl stepSys s) := by
    intro l
    induction l with
    | nil => intro s hs; exact hs
    | cons a t ih => intro s hs; exact ih _ (policyInv_step s a hs)
  apply key
  intro m hm
  simp [initSys] at hm


/-! ### Claims -/

/-- Claim C1: for every reconciliation while the active mode is not Disabled
and the session is locked, the published display flag is false whenever the
mode config sets DisableOnLockScreen, even if KeepDisplayOn is set; and when
DisableOnLockScreen is clear the display request survives the lock: the
published flag equals the KeepDisplayOn config value. -/
theorem C1_lock_suppression (app : AppState) (st : CaffeineState) (o : Bool)
    (hm : app.mCaffeineMode ≠ CaffeineMode.Disabled)
    (hl : app.mSessionState = SessionState.Locked) :
    ((modeConfig app.mSettings app.mCaffeineMode).DisableOnLockScreen = true →
      (UpdateExecutionState app st o).st.mKeepDisplayOn = false) ∧
    ((modeConfig app.mSettings app.mCaffeineMode).DisableOnLockScreen = false →
      (UpdateExecutionState app st o).st.mKeepDisplayOn =
        (modeConfig app.mSettings app.mCaffeineMode).KeepDisplayOn) := by
  rw [updateState_mKeepDisplayOn app st o hm]
  simp only [desiredKeepDisplayOn, hm, hl]
  constructor <;> intro hd <;>
    cases hk : (modeConfig app.mSettings app.mCaffeineMode).KeepDisplayOn <;>
      simp_all

/-- Witness for C1 at a concrete locked Enabled-mode state whose config
requests display-on and disables it on the lock screen. -/
theorem C1_lock_suppression_witness :
    ((modeConfig (⟨⟨⟨true, true⟩, ⟨false, false⟩, ⟨false, false⟩⟩,
        SessionState.Locked, CaffeineState.Active, CaffeineMode.Enabled,
        true⟩ : AppState).mSettings
      (⟨⟨⟨true, true⟩, ⟨false, false⟩, ⟨false, false⟩⟩,
        SessionState.Locked, CaffeineState.Active, CaffeineMode.Enabled,
        true⟩ : AppState).mCaffeineMode).DisableOnLockScreen = true →
      (UpdateExecutionState
        (⟨⟨⟨true, true⟩, ⟨false, false⟩, ⟨false, false⟩⟩,
          SessionState.Locked, CaffeineState.Active, CaffeineMode.Enabled,
          true⟩ : AppState)
        CaffeineState.Active true).st.mKeepDisplayOn = false) ∧
    ((modeConfig (⟨⟨⟨true, true⟩, ⟨false, false⟩, ⟨false, false⟩⟩,
        SessionState.Locked, CaffeineState.Active, CaffeineMode.Enabled,
        true⟩ : AppState).mSettings
      (⟨⟨⟨true, true⟩, ⟨false, false⟩, ⟨false, false⟩⟩,
        SessionState.Locked, CaffeineState.Active, CaffeineMode.Enabled,
        true⟩ : AppState).mCaffeineMode).DisableOnLockScreen = false →
      (UpdateExecutionState
        (⟨⟨⟨true, true⟩, ⟨false, false⟩, ⟨false, false⟩⟩,
          SessionState.Locked, CaffeineState.Active, CaffeineMode.Enabled,
          true⟩ : AppState)
        CaffeineState.Active true).st.mKeepDisplayOn =
        (modeConfig (⟨⟨⟨true, true⟩, ⟨false, false⟩, ⟨false, false⟩⟩,
          SessionState.Locked, CaffeineState.Active, CaffeineMode.Enabled,
          true⟩ : AppState).mSettings
        (⟨⟨⟨true, true⟩, ⟨false, false⟩, ⟨false, false⟩⟩,
          SessionState.Locked, CaffeineState.Active, CaffeineMode.Enabled,
          true⟩ : AppState).mCaffeineMode).KeepDisplayOn) :=
  C1_lock_suppression
    (⟨⟨⟨true, true⟩, ⟨false, false⟩, ⟨false, false⟩⟩,
      SessionState.Locked, CaffeineState.Active, CaffeineMode.Enabled,
      true⟩ : AppState)
    CaffeineState.Active true (by decide) (by decide)

/-- Claim C2 is false on the code: with the OS call failing, the state
recorded after the call differs from the state before it.  Concretely, from
Enabled mode, inactive, display flag off, all-false settings, a request for
Active with a failing OS call still records the Active state. -/
theorem C2_counterexample :
    (UpdateExecutionState
      (⟨⟨⟨false, false⟩, ⟨false, false⟩, ⟨false, false⟩⟩,
        SessionState.Unlocked, CaffeineState.Inactive, CaffeineMode.Enabled,
        false⟩ : AppState)
      CaffeineState.Active false).st ≠
    (⟨⟨⟨false, false⟩, ⟨false, false⟩, ⟨false, false⟩⟩,
      SessionState.Unlocked, CaffeineState.Inactive, CaffeineMode.Enabled,
      false⟩ : AppState) := by decide

/-- Amended claim C2: the member assignments precede the OS call, so a failed
call leaves exactly the same recorded state as a successful one — the failed
attempt is recorded — and only the icon/tip refresh is skipped. -/
theorem C2_failed_call_recorded (app : AppState) (st : CaffeineState) :
    (UpdateExecutionState app st false).st = (UpdateExecutionState app st true).st ∧
    (UpdateExecutionState app st false).uiRefreshed = false :=
  ⟨(updateState_osFail app st).1, (updateState_osFail app st).2.2⟩

/-- Claim C3 is false on the code: reconciliation in Disabled mode does not
force the execution state to Inactive; a request for Active while Disabled
and inactive records Active. -/
theorem C3_counterexample :
    (UpdateExecutionState
      (⟨⟨⟨false, false⟩, ⟨false, false⟩, ⟨false, false⟩⟩,
        SessionState.Unlocked, CaffeineState.Inactive, CaffeineMode.Disabled,
        false⟩ : AppState)
      CaffeineState.Active true).st.mCaffeineState ≠ CaffeineState.Inactive := by
  decide

/-- Amended claim C3: in Disabled mode the resulting execution state equals
the requested activity value (the Disabled path does not force Inactive),
and the display flag becomes false whenever an update is committed, keeping
its old value only when the short-circuit fires. -/
theorem C3_disabled_follows_request (app : AppState) (st : CaffeineState) (o : Bool)
    (h : app.mCaffeineMode = CaffeineMode.Disabled) :
    (UpdateExecutionState app st o).st.mCaffeineState = st ∧
    (UpdateExecutionState app st o).st.mKeepDisplayOn =
      (if app.mCaffeineState = st then app.mKeepDisplayOn else false) := by
  refine ⟨updateState_mCaffeineState app st o, ?_⟩
  simp only [UpdateExecutionState, commitExecutionState, h, modeConfig]
  repeat' split
  all_goals simp_all

/-- Witness for C3 at a concrete Disabled-mode state with a request for
Active. -/
theorem C3_disabled_follows_request_witness :
    (UpdateExecutionState
      (⟨⟨⟨false, false⟩, ⟨false, false⟩, ⟨false, false⟩⟩,
        SessionState.Unlocked, CaffeineState.Inactive, CaffeineMode.Disabled,
        true⟩ : AppState)
      CaffeineState.Active true).st.mCaffeineState = CaffeineState.Active ∧
    (UpdateExecutionState
      (⟨⟨⟨false, false⟩, ⟨false, false⟩, ⟨false, false⟩⟩,
        SessionState.Unlocked, CaffeineState.Inactive, CaffeineMode.Disabled,
        true⟩ : AppState)
      CaffeineState.Active true).st.mKeepDisplayOn =
      (if (⟨⟨⟨false, false⟩, ⟨false, false⟩, ⟨false, false⟩⟩,
        SessionState.Unlocked, CaffeineState.Inactive, CaffeineMode.Disabled,
        true⟩ : AppState).mCaffeineState = CaffeineState.Active then
        (⟨⟨⟨false, false⟩, ⟨false, false⟩, ⟨false, false⟩⟩,
          SessionState.Unlocked, CaffeineState.Inactive, CaffeineMode.Disabled,
          true⟩ : AppState).mKeepDisplayOn
      else false) :=
  C3_disabled_follows_request
    (⟨⟨⟨false, false⟩, ⟨false, false⟩, ⟨false, false⟩⟩,
      SessionState.Unlocked, CaffeineState.Inactive, CaffeineMode.Disabled,
      true⟩ : AppState)
    CaffeineState.Active true (by decide)


/-- Replacing the mode field by its current value is the identity. -/
lemma setModeField_self (b : AppState) (m : CaffeineMode) (h : b.mCaffeineMode = m) :
    ({ b with mCaffeineMode := m } : AppState) = b := by
  cases b
  simp_all

/-- Claim C4: when the desired pair (executionState, displayOnAsserted)
equals the recorded pair, reconciliation makes no OS call and leaves the
state unchanged; consequently a second consecutive setMode(Enabled) makes no
OS call and leaves the member fields where the first left them. -/
theorem C4_short_circuit :
    (∀ (app : AppState) (st : CaffeineState) (o : Bool),
      (st, desiredKeepDisplayOn app) = (app.mCaffeineState, app.mKeepDisplayOn) →
      UpdateExecutionState app st o =
        { st := app, osCall := none, uiRefreshed := false }) ∧
    (∀ (app : AppState) (o1 o2 : Bool),
      (SetCaffeineModeApp (SetCaffeineModeApp app CaffeineMode.Enabled o1).1
        CaffeineMode.Enabled o2).2 = none ∧
      (SetCaffeineModeApp (SetCaffeineModeApp app CaffeineMode.Enabled o1).1
        CaffeineMode.Enabled o2).1 =
        (SetCaffeineModeApp app CaffeineMode.Enabled o1).1) := by
  constructor
  · intro app st o h
    rw [Prod.mk.injEq] at h
    exact updateState_shortCircuit app st o h.1.symm h.2.symm
  · intro app o1 o2
    simp only [SetCaffeineModeApp, startModeReport]
    set app1 : AppState := { app with mCaffeineMode := CaffeineMode.Enabled } with happ1
    set b : AppState := (UpdateExecutionState app1 CaffeineState.Active o1).st with hb
    have hmode : b.mCaffeineMode = CaffeineMode.Enabled := by
      rw [hb, updateState_mCaffeineMode]
    have hset : ({ b with mCaffeineMode := CaffeineMode.Enabled } : AppState) = b :=
      setModeField_self b CaffeineMode.Enabled hmode
    have hstate : b.mCaffeineState = CaffeineState.Active := by
      rw [hb]
      exact updateState_mCaffeineState app1 CaffeineState.Active o1
    have hkdo : b.mKeepDisplayOn = desiredKeepDisplayOn b := by
      rw [hb, updateState_mKeepDisplayOn app1 CaffeineState.Active o1 (by simp [happ1])]
      exact desiredKeepDisplayOn_congr app1 b
        (by rw [hb, updateState_mSettings])
        (by rw [hb, updateState_mSessionState])
        (by rw [hb, updateState_mCaffeineMode])
    have hsc := updateState_shortCircuit b CaffeineState.Active o2 hstate hkdo
    rw [hset, hsc]
    exact ⟨rfl, rfl⟩

/-- Witness for C4: the initial-style state short-circuits a redundant
Inactive request, and a double setMode(Enabled) from it makes no second OS
call. -/
theorem C4_short_circuit_witness :
    (UpdateExecutionState
      (⟨⟨⟨false, false⟩, ⟨false, false⟩, ⟨false, false⟩⟩,
        SessionState.Unlocked, CaffeineState.Inactive, CaffeineMode.Disabled,
        false⟩ : AppState)
      CaffeineState.Inactive true =
      { st := (⟨⟨⟨false, false⟩, ⟨false, false⟩, ⟨false, false⟩⟩,
          SessionState.Unlocked, CaffeineState.Inactive, CaffeineMode.Disabled,
          false⟩ : AppState),
        osCall := none, uiRefreshed := false }) ∧
    ((SetCaffeineModeApp
        (SetCaffeineModeApp
          (⟨⟨⟨false, false⟩, ⟨false, false⟩, ⟨false, false⟩⟩,
            SessionState.Unlocked, CaffeineState.Inactive, CaffeineMode.Disabled,
            false⟩ : AppState) CaffeineMode.Enabled true).1
        CaffeineMode.Enabled true).2 = none ∧
      (SetCaffeineModeApp
        (SetCaffeineModeApp
          (⟨⟨⟨false, false⟩, ⟨false, false⟩, ⟨false, false⟩⟩,
            SessionState.Unlocked, CaffeineState.Inactive, CaffeineMode.Disabled,
            false⟩ : AppState) CaffeineMode.Enabled true).1
        CaffeineMode.Enabled true).1 =
        (SetCaffeineModeApp
          (⟨⟨⟨false, false⟩, ⟨false, false⟩, ⟨false, false⟩⟩,
            SessionState.Unlocked, CaffeineState.Inactive, CaffeineMode.Disabled,
            false⟩ : AppState) CaffeineMode.Enabled true).1) :=
  ⟨C4_short_circuit.1
    (⟨⟨⟨false, false⟩, ⟨false, false⟩, ⟨false, false⟩⟩,
      SessionState.Unlocked, CaffeineState.Inactive, CaffeineMode.Disabled,
      false⟩ : AppState)
    CaffeineState.Inactive true (by decide),
   C4_short_circuit.2
    (⟨⟨⟨false, false⟩, ⟨false, false⟩, ⟨false, false⟩⟩,
      SessionState.Unlocked, CaffeineState.Inactive, CaffeineMode.Disabled,
      false⟩ : AppState) true true⟩

/-- Claim C5 is false on the code: the recorded display flag can be true
while the execution state is Inactive.  With Auto mode configured to keep
the display on, an activity report followed by an inactivity report leaves
mKeepDisplayOn true while mCaffeineState is Inactive. -/
theorem C5_counterexample :
    (runSys (⟨⟨false, false⟩, ⟨true, false⟩, ⟨false, false⟩⟩ : Settings)
      [Stimulus.setMode CaffeineMode.Auto true,
       Stimulus.policyDecision true true,
       Stimulus.policyDecision false true]).app.mKeepDisplayOn = true ∧
    (runSys (⟨⟨false, false⟩, ⟨true, false⟩, ⟨false, false⟩⟩ : Settings)
      [Stimulus.setMode CaffeineMode.Auto true,
       Stimulus.policyDecision true true,
       Stimulus.policyDecision false true]).app.mCaffeineState =
      CaffeineState.Inactive := by decide

/-- Amended claim C5: the recorded display flag may be stale while Inactive;
what holds instead is the OS-facing form of the invariant: any reconciliation
whose OS call includes the display-required bit records executionState
Active, and the requested state of that call is Active. -/
theorem C5_display_only_when_active (app : AppState) (st : CaffeineState) (o : Bool)
    (h : osCallHasDisplay (UpdateExecutionState app st o) = true) :
    (UpdateExecutionState app st o).st.mCaffeineState = CaffeineState.Active ∧
    st = CaffeineState.Active := by
  have hst : st = CaffeineState.Active := by
    rcases updateState_osCall_eq app st o with hc | hc
    · simp only [osCallHasDisplay, hc] at h
      exact Bool.noConfusion h
    · simp only [osCallHasDisplay, hc] at h
      exact (executionFlags_bits st _).2.2 h
  exact ⟨(updateState_mCaffeineState app st o).trans hst, hst⟩

/-- Witness for C5 at a concrete Enabled-mode activation that requests the
display bit. -/
theorem C5_display_only_when_active_witness :
    (UpdateExecutionState
      (⟨⟨⟨true, false⟩, ⟨false, false⟩, ⟨false, false⟩⟩,
        SessionState.Unlocked, CaffeineState.Inactive, CaffeineMode.Enabled,
        false⟩ : AppState)
      CaffeineState.Active true).st.mCaffeineState = CaffeineState.Active ∧
    CaffeineState.Active = CaffeineState.Active :=
  C5_display_only_when_active
    (⟨⟨⟨true, false⟩, ⟨false, false⟩, ⟨false, false⟩⟩,
      SessionState.Unlocked, CaffeineState.Inactive, CaffeineMode.Enabled,
      false⟩ : AppState)
    CaffeineState.Active true (by decide)

/-- Claim C6: session lock and unlock events update the session state and
re-run reconciliation only — the running policies, the mode and the
execution state are untouched — and a lock in Enabled mode whose config is
keepDisplayOn with disableOnLockScreen drives the display flag to false
while the execution state stays put. -/
theorem C6_session_events (s : SysState) (app : AppState) (o : Bool)
    (hm : app.mCaffeineMode = CaffeineMode.Enabled)
    (hcfg : app.mSettings.Standard = (⟨true, true⟩ : ModeSettings)) :
    ((stepSys s (Stimulus.sessionLock o)).running = s.running ∧
     (stepSys s (Stimulus.sessionUnlock o)).running = s.running ∧
     (stepSys s (Stimulus.sessionLock o)).app.mCaffeineMode = s.app.mCaffeineMode ∧
     (stepSys s (Stimulus.sessionUnlock o)).app.mCaffeineMode = s.app.mCaffeineMode ∧
     (stepSys s (Stimulus.sessionLock o)).app.mCaffeineState = s.app.mCaffeineState ∧
     (stepSys s (Stimulus.sessionUnlock o)).app.mCaffeineState = s.app.mCaffeineState ∧
     (stepSys s (Stimulus.sessionLock o)).app.mSessionState = SessionState.Locked ∧
     (stepSys s (Stimulus.sessionUnlock o)).app.mSessionState = SessionState.Unlocked) ∧
    ((RefreshExecutionState { app with mSessionState := SessionState.Locked }
        o).st.mKeepDisplayOn = false ∧
     (RefreshExecutionState { app with mSessionState := SessionState.Locked }
        o).st.mCaffeineState = app.mCaffeineState) := by
  refine ⟨⟨rfl, rfl, ?_, ?_, ?_, ?_, ?_, ?_⟩, ?_, ?_⟩
  · simp only [stepSys, RefreshExecutionState]
    rw [updateState_mCaffeineMode]
  · simp only [stepSys, RefreshExecutionState]
    rw [updateState_mCaffeineMode]
  · simp only [stepSys, RefreshExecutionState]
    rw [updateState_mCaffeineState]
  · simp only [stepSys, RefreshExecutionState]
    rw [updateState_mCaffeineState]
  · simp only [stepSys, RefreshExecutionState]
    rw [updateState_mSessionState]
  · simp only [stepSys, RefreshExecutionState]
    rw [updateState_mSessionState]
  · rw [RefreshExecutionState,
      updateState_mKeepDisplayOn _ _ o (by simp [hm])]
    simp [desiredKeepDisplayOn, modeConfig, hm, hcfg]
  · rw [RefreshExecutionState, updateState_mCaffeineState]

/-- Witness for C6 at a concrete active Enabled-mode state with display-on
held and the suppress-on-lock config. -/
theorem C6_session_events_witness :
    ((stepSys (initSys (⟨⟨true, true⟩, ⟨false, false⟩, ⟨false, false⟩⟩ : Settings))
        (Stimulus.sessionLock true)).running =
      (initSys (⟨⟨true, true⟩, ⟨false, false⟩, ⟨false, false⟩⟩ : Settings)).running ∧
     (stepSys (initSys (⟨⟨true, true⟩, ⟨false, false⟩, ⟨false, false⟩⟩ : Settings))
        (Stimulus.sessionUnlock true)).running =
      (initSys (⟨⟨true, true⟩, ⟨false, false⟩, ⟨false, false⟩⟩ : Settings)).running ∧
     (stepSys (initSys (⟨⟨true, true⟩, ⟨false, false⟩, ⟨false, false⟩⟩ : Settings))
        (Stimulus.sessionLock true)).app.mCaffeineMode =
      (initSys (⟨⟨true, true⟩, ⟨false, false⟩, ⟨false, false⟩⟩ : Settings)).app.mCaffeineMode ∧
     (stepSys (initSys (⟨⟨true, true⟩, ⟨false, false⟩, ⟨false, false⟩⟩ : Settings))
        (Stimulus.sessionUnlock true)).app.mCaffeineMode =
      (initSys (⟨⟨true, true⟩, ⟨false, false⟩, ⟨false, false⟩⟩ : Settings)).app.mCaffeineMode ∧
     (stepSys (initSys (⟨⟨true, true⟩, ⟨false, false⟩, ⟨false, false⟩⟩ : Settings))
        (Stimulus.sessionLock true)).app.mCaffeineState =
      (initSys (⟨⟨true, true⟩, ⟨false, false⟩, ⟨false, false⟩⟩ : Settings)).app.mCaffeineState ∧
     (stepSys (initSys (⟨⟨true, true⟩, ⟨false, false⟩, ⟨false, false⟩⟩ : Settings))
        (Stimulus.sessionUnlock true)).app.mCaffeineState =
      (initSys (⟨⟨true, true⟩, ⟨false, false⟩, ⟨false, false⟩⟩ : Settings)).app.mCaffeineState ∧
     (stepSys (initSys (⟨⟨true, true⟩, ⟨false, false⟩, ⟨false, false⟩⟩ : Settings))
        (Stimulus.sessionLock true)).app.mSessionState = SessionState.Locked ∧
     (stepSys (initSys (⟨⟨true, true⟩, ⟨false, false⟩, ⟨false, false⟩⟩ : Settings))
        (Stimulus.sessionUnlock true)).app.mSessionState = SessionState.Unlocked) ∧
    ((RefreshExecutionState
        { (⟨⟨⟨true, true⟩, ⟨false, false⟩, ⟨false, false⟩⟩,
            SessionState.Unlocked, CaffeineState.Active, CaffeineMode.Enabled,
            true⟩ : AppState) with mSessionState := SessionState.Locked }
        true).st.mKeepDisplayOn = false ∧
     (RefreshExecutionState
        { (⟨⟨⟨true, true⟩, ⟨false, false⟩, ⟨false, false⟩⟩,
            SessionState.Unlocked, CaffeineState.Active, CaffeineMode.Enabled,
            true⟩ : AppState) with mSessionState := SessionState.Locked }
        true).st.mCaffeineState =
      (⟨⟨⟨true, true⟩, ⟨false, false⟩, ⟨false, false⟩⟩,
        SessionState.Unlocked, CaffeineState.Active, CaffeineMode.Enabled,
        true⟩ : AppState).mCaffeineState) :=
  C6_session_events
    (initSys (⟨⟨true, true⟩, ⟨false, false⟩, ⟨false, false⟩⟩ : Settings))
    (⟨⟨⟨true, true⟩, ⟨false, false⟩, ⟨false, false⟩⟩,
      SessionState.Unlocked, CaffeineState.Active, CaffeineMode.Enabled,
      true⟩ : AppState)
    true (by decide) (by decide)


/-- Toggling leaves the coordinator in the successor mode. -/
lemma toggle_mode (app : AppState) (o : Bool) :
    (ToggleCaffeineModeApp app o).1.mCaffeineMode = nextMode app.mCaffeineMode :=
  setCaffeineModeApp_mode app (nextMode app.mCaffeineMode) o

/-- Claim C7: toggling maps the current mode to its successor in the fixed
cycle Disabled → Enabled → Auto → Timer → Disabled and calls setMode with
it; four consecutive toggles from Disabled visit Enabled, Auto and Timer in
that order and return to Disabled. -/
theorem C7_toggle_cycle :
    (nextMode CaffeineMode.Disabled = CaffeineMode.Enabled ∧
     nextMode CaffeineMode.Enabled = CaffeineMode.Auto ∧
     nextMode CaffeineMode.Auto = CaffeineMode.Timer ∧
     nextMode CaffeineMode.Timer = CaffeineMode.Disabled) ∧
    (∀ (s : SysState) (o : Bool),
      ToggleCaffeineModeSys s o = SetCaffeineModeSys s (nextMode s.app.mCaffeineMode) o) ∧
    (∀ (app : AppState) (o1 o2 o3 o4 : Bool),
      app.mCaffeineMode = CaffeineMode.Disabled →
      (ToggleCaffeineModeApp app o1).1.mCaffeineMode = CaffeineMode.Enabled ∧
      (ToggleCaffeineModeApp (ToggleCaffeineModeApp app o1).1 o2).1.mCaffeineMode =
        CaffeineMode.Auto ∧
      (ToggleCaffeineModeApp (ToggleCaffeineModeApp (ToggleCaffeineModeApp app o1).1
        o2).1 o3).1.mCaffeineMode = CaffeineMode.Timer ∧
      (ToggleCaffeineModeApp (ToggleCaffeineModeApp (ToggleCaffeineModeApp
        (ToggleCaffeineModeApp app o1).1 o2).1 o3).1 o4).1.mCaffeineMode =
        CaffeineMode.Disabled) := by
  refine ⟨⟨rfl, rfl, rfl, rfl⟩, fun s o => rfl, ?_⟩
  intro app o1 o2 o3 o4 h
  have h1 : (ToggleCaffeineModeApp app o1).1.mCaffeineMode = CaffeineMode.Enabled := by
    rw [toggle_mode, h]
    decide
  have h2 : (ToggleCaffeineModeApp (ToggleCaffeineModeApp app o1).1
      o2).1.mCaffeineMode = CaffeineMode.Auto := by
    rw [toggle_mode, h1]
    decide
  have h3 : (ToggleCaffeineModeApp (ToggleCaffeineModeApp (ToggleCaffeineModeApp app
      o1).1 o2).1 o3).1.mCaffeineMode = CaffeineMode.Timer := by
    rw [toggle_mode, h2]
    decide
  have h4 : (ToggleCaffeineModeApp (ToggleCaffeineModeApp (ToggleCaffeineModeApp
      (ToggleCaffeineModeApp app o1).1 o2).1 o3).1 o4).1.mCaffeineMode =
      CaffeineMode.Disabled := by
    rw [toggle_mode, h3]
    decide
  exact ⟨h1, h2, h3, h4⟩

/-- Witness for C7: four toggles from the initial Disabled state. -/
theorem C7_toggle_cycle_witness :
    (ToggleCaffeineModeApp
      (⟨⟨⟨false, false⟩, ⟨false, false⟩, ⟨false, false⟩⟩,
        SessionState.Unlocked, CaffeineState.Inactive, CaffeineMode.Disabled,
        false⟩ : AppState) true).1.mCaffeineMode = CaffeineMode.Enabled ∧
    (ToggleCaffeineModeApp (ToggleCaffeineModeApp
      (⟨⟨⟨false, false⟩, ⟨false, false⟩, ⟨false, false⟩⟩,
        SessionState.Unlocked, CaffeineState.Inactive, CaffeineMode.Disabled,
        false⟩ : AppState) true).1 true).1.mCaffeineMode = CaffeineMode.Auto ∧
    (ToggleCaffeineModeApp (ToggleCaffeineModeApp (ToggleCaffeineModeApp
      (⟨⟨⟨false, false⟩, ⟨false, false⟩, ⟨false, false⟩⟩,
        SessionState.Unlocked, CaffeineState.Inactive, CaffeineMode.Disabled,
        false⟩ : AppState) true).1 true).1 true).1.mCaffeineMode = CaffeineMode.Timer ∧
    (ToggleCaffeineModeApp (ToggleCaffeineModeApp (ToggleCaffeineModeApp
      (ToggleCaffeineModeApp
      (⟨⟨⟨false, false⟩, ⟨false, false⟩, ⟨false, false⟩⟩,
        SessionState.Unlocked, CaffeineState.Inactive, CaffeineMode.Disabled,
        false⟩ : AppState) true).1 true).1 true).1 true).1.mCaffeineMode =
      CaffeineMode.Disabled :=
  C7_toggle_cycle.2.2
    (⟨⟨⟨false, false⟩, ⟨false, false⟩, ⟨false, false⟩⟩,
      SessionState.Unlocked, CaffeineState.Inactive, CaffeineMode.Disabled,
      false⟩ : AppState)
    true true true true (by decide)

/-- Claim C8: in every state reachable by any stimulus sequence, at most one
mode policy is started without a matching stop; setMode emits exactly a stop
of the previous mode followed by a start of the target mode, also when the
target equals the current mode. -/
theorem C8_one_policy :
    (∀ (settings : Settings) (l : List Stimulus),
      countRunning (runSys settings l).running ≤ 1) ∧
    (∀ (s : SysState) (m : CaffeineMode) (o : Bool),
      (SetCaffeineModeSys s m o).events =
        [PolicyEvent.stop s.app.mCaffeineMode, PolicyEvent.start m]) := by
  refine ⟨?_, fun s m o => rfl⟩
  intro settings l
  exact countRunning_le_one _ _ (policyInv_runSys settings l)

/-- Modelled from the spec: the `Settings` struct is defined and
default-constructed outside this translation unit; per the spec, the safe
defaults are keepDisplayOn=false and disableOnLockScreen=false for every
mode. -/
def defaultSettings : Settings := ⟨⟨false, false⟩, ⟨false, false⟩, ⟨false, false⟩⟩

/-- Disposition of the settings file as distinguished by `Init` and
`LoadSettings`: absent; present but unopenable; opens but the JSON parse is
discarded; parses but does not deserialize to `Settings`; fully valid. -/
inductive SettingsFileState
  | missing
  | unreadable
  | invalidJson
  | wrongSchema
  | valid (s : Settings)
deriving DecidableEq

/-- Result of the settings-loading phase: whether initialization proceeds,
and the settings in effect afterwards. -/
structure LoadResult where
  ok : Bool
  settings : Settings
deriving DecidableEq

/-- Embedding of `CaffeineApp::LoadSettings`: a file that cannot be opened
(including a missing one) or whose JSON parse is discarded returns failure;
a parse that does not deserialize to `Settings` falls back to
default-constructed settings and succeeds; a valid file replaces the
settings. -/
def LoadSettings (current : Settings) : SettingsFileState → LoadResult
  | SettingsFileState.missing => { ok := false, settings := current }
  | SettingsFileState.unreadable => { ok := false, settings := current }
  | SettingsFileState.invalidJson => { ok := false, settings := current }
  | SettingsFileState.wrongSchema => { ok := true, settings := defaultSettings }
  | SettingsFileState.valid s => { ok := true, settings := s }

/-- The settings-loading block of `CaffeineApp::Init`: a missing file is
recreated with the current (default-constructed) settings and `Init`
proceeds; otherwise a failing `LoadSettings` makes `Init` return false. -/
def InitLoadPhase (current : Settings) (f : SettingsFileState) : LoadResult :=
  if f = SettingsFileState.missing then { ok := true, settings := current }
  else LoadSettings current f

/-- Claim C9 is false on the code: a settings file whose JSON parse is
discarded (malformed JSON) makes the loading phase fail, so `Init` returns
false — initialization does abort on that configuration content. -/
theorem C9_counterexample :
    (InitLoadPhase defaultSettings SettingsFileState.invalidJson).ok = false := by
  decide

/-- Amended claim C9: only a well-formed JSON file that fails to deserialize
to `Settings` falls back to defaults, and a missing file is recreated with
defaults; malformed JSON or an unopenable file aborts initialization. -/
theorem C9_fallback_scope (c : Settings) (s0 : Settings) :
    InitLoadPhase c SettingsFileState.missing = { ok := true, settings := c } ∧
    InitLoadPhase c SettingsFileState.wrongSchema =
      { ok := true, settings := defaultSettings } ∧
    InitLoadPhase c (SettingsFileState.valid s0) = { ok := true, settings := s0 } ∧
    (InitLoadPhase c SettingsFileState.invalidJson).ok = false ∧
    (InitLoadPhase c SettingsFileState.unreadable).ok = false := by
  refine ⟨rfl, rfl, rfl, rfl, rfl⟩

/-- Claim C10: every OS execution-state call includes ES_CONTINUOUS, and
ES_DISPLAY_REQUIRED is included only together with ES_SYSTEM_REQUIRED, that
is, only when the newly recorded execution state is Active. -/
theorem C10_flag_discipline (app : AppState) (st : CaffeineState) (o : Bool)
    (h : osCallMade (UpdateExecutionState app st o) = true) :
    osCallHasContinuous (UpdateExecutionState app st o) = true ∧
    (osCallHasDisplay (UpdateExecutionState app st o) = true →
      osCallHasSystem (UpdateExecutionState app st o) = true) ∧
    (osCallHasDisplay (UpdateExecutionState app st o) = true →
      (UpdateExecutionState app st o).st.mCaffeineState = CaffeineState.Active) := by
  rcases updateState_osCall_eq app st o with hc | hc
  · simp only [osCallMade, hc] at h
    exact Bool.noConfusion h
  · refine ⟨?_, ?_, ?_⟩
    · simp only [osCallHasContinuous, hc]
      exact (executionFlags_bits st _).1
    · intro hd
      simp only [osCallHasDisplay, hc] at hd
      simp only [osCallHasSystem, hc]
      exact (executionFlags_bits st _).2.1 hd
    · intro hd
      simp only [osCallHasDisplay, hc] at hd
      rw [updateState_mCaffeineState]
      exact (executionFlags_bits st _).2.2 hd

/-- Witness for C10 at a concrete Enabled-mode activation that makes an OS
call. -/
theorem C10_flag_discipline_witness :
    osCallHasContinuous (UpdateExecutionState
      (⟨⟨⟨false, false⟩, ⟨false, false⟩, ⟨false, false⟩⟩,
        SessionState.Unlocked, CaffeineState.Inactive, CaffeineMode.Enabled,
        false⟩ : AppState) CaffeineState.Active true) = true ∧
    (osCallHasDisplay (UpdateExecutionState
      (⟨⟨⟨false, false⟩, ⟨false, false⟩, ⟨false, false⟩⟩,
        SessionState.Unlocked, CaffeineState.Inactive, CaffeineMode.Enabled,
        false⟩ : AppState) CaffeineState.Active true) = true →
      osCallHasSystem (UpdateExecutionState
      (⟨⟨⟨false, false⟩, ⟨false, false⟩, ⟨false, false⟩⟩,
        SessionState.Unlocked, CaffeineState.Inactive, CaffeineMode.Enabled,
        false⟩ : AppState) CaffeineState.Active true) = true) ∧
    (osCallHasDisplay (UpdateExecutionState
      (⟨⟨⟨false, false⟩, ⟨false, false⟩, ⟨false, false⟩⟩,
        SessionState.Unlocked, CaffeineState.Inactive, CaffeineMode.Enabled,
        false⟩ : AppState) CaffeineState.Active true) = true →
      (UpdateExecutionState
      (⟨⟨⟨false, false⟩, ⟨false, false⟩, ⟨false, false⟩⟩,
        SessionState.Unlocked, CaffeineState.Inactive, CaffeineMode.Enabled,
        false⟩ : AppState) CaffeineState.Active true).st.mCaffeineState =
        CaffeineState.Active) :=
  C10_flag_discipline
    (⟨⟨⟨false, false⟩, ⟨false, false⟩, ⟨false, false⟩⟩,
      SessionState.Unlocked, CaffeineState.Inactive, CaffeineMode.Enabled,
      false⟩ : AppState)
    CaffeineState.Active true (by decide)

end CaffeineTake
